import Mathlib

/-!
Verification development for the `eliza-xmrt-dao` chat front-end.

The definitions below are a shallow embedding of the client-side logic of
`src/components/ElizaApiService.ts`, of the TTS service, and of the SQL
functions of the `conversation_memory` migration.  JavaScript strings are
modelled as `List Char` (`Chars`); `String.prototype.includes(pat)` is
substring (infix) occurrence; `toLowerCase` is character-wise lowering.
External I/O (the generative-AI call, `fetch`, the Supabase edge function,
audio playback) is modelled by explicit outcome parameters: each call site
receives the outcome of the corresponding external interaction as an
argument, and the embedded function computes exactly what the source code
computes from that outcome.  JavaScript numbers appearing here are either
integers (modelled as `Nat`/`Int`) or exact decimal constants and
divisions of them (modelled as `Rat`); `Math.round` is `jsRound`,
rounding half away from minus infinity as JavaScript does.
-/

/-- JavaScript strings, modelled as lists of characters. -/
abbrev Chars := List Char

/-- Embedding of `s.toLowerCase()` (character-wise lowering). -/
def lowerStr (s : Chars) : Chars := s.map Char.toLower

/-- Embedding of `s.includes(pat)` : `pat` occurs as a contiguous substring. -/
def includesStr (s pat : Chars) : Bool := decide (pat <:+: s)

/-- Decision kinds, the `decision_type` union of `ElizaResponse`. -/
inductive DecisionType
  | autonomous
  | advisory
  | emergency
  | general
deriving DecidableEq

/-- Risk levels of a suggested action. -/
inductive RiskLevel
  | low
  | medium
  | high
deriving DecidableEq

/-- One entry of `actions_suggested`. -/
structure SuggestedAction where
  type : Chars
  description : Chars
  risk_level : RiskLevel
deriving DecidableEq

/-- The `system_status` field of `ElizaResponse`. -/
structure SystemStatus where
  uptime : Rat
  queue_size : Nat
  active_agents : List Chars
deriving DecidableEq

/-- Avatar emotions, the `emotion` union of `VideoAvatarState`. -/
inductive Emotion
  | neutral
  | happy
  | thinking
  | concerned
  | excited
deriving DecidableEq

/-- The `VideoAvatarState` interface. -/
structure VideoAvatarState where
  isGenerating : Bool
  currentVideoUrl : Option Chars
  emotion : Emotion
  isReady : Bool
deriving DecidableEq

/-- Endpoint liveness, the `status` union of `SystemEndpoint`. -/
inductive EndpointStatus
  | online
  | offline
  | degraded
deriving DecidableEq

/-- What `checkSystemEndpoints` stores into an endpoint's `data` field:
a parsed JSON body, the non-JSON marker, or the error marker. -/
inductive EndpointPayload
  | parsed (body : Chars)
  | accessible
  | errorMarker (msg : Chars)
deriving DecidableEq

/-- The `SystemEndpoint` interface.  `lastChecked` is a timestamp; it is
an `Option` so that a record on which no check has completed yet can be
distinguished from a checked one. -/
structure SystemEndpoint where
  name : Chars
  url : Chars
  status : EndpointStatus
  lastChecked : Option Nat
  responseTime : Nat
  data : Option EndpointPayload
deriving DecidableEq

/-- The hashrate block returned by `getHashrateData`. -/
structure HashrateData where
  current_hashrate : Chars
  difficulty : Chars
  network_security : Int
  mining_activity : Chars
deriving DecidableEq

/-- The `real_time_data` field of `ElizaResponse`. -/
structure RealTimeData where
  xmrt_ecosystem_health : Int
  dao_activity : Int
  treasury_value : Chars
  active_governance_proposals : Nat
  network_hashrate : Option HashrateData
deriving DecidableEq

/-- The `ElizaResponse` interface (optional fields as `Option`). -/
structure ElizaResponse where
  content : Chars
  confidence_score : Rat
  decision_type : DecisionType
  actions_suggested : List SuggestedAction
  system_status : Option SystemStatus
  avatar_state : Option VideoAvatarState
  system_endpoints : Option (List SystemEndpoint)
  real_time_data : Option RealTimeData
deriving DecidableEq

/-- The `ElizaMessage` interface (the `context` blob is opaque and does not
influence any embedded computation; it is omitted). -/
structure ElizaMessage where
  content : Chars
  sender : Option Chars
  timestamp : Option Chars
  type : Option Chars
deriving DecidableEq

/-- Keyword scanned for by the decision-type classifier. -/
def kwEmergency : Chars := ("emergency").data

/-- Keyword scanned for by the decision-type classifier. -/
def kwUrgent : Chars := ("urgent").data

/-- Keyword scanned for by the decision-type classifier. -/
def kwCritical : Chars := ("critical").data

/-- Keyword scanned for by the decision-type classifier. -/
def kwGovernance : Chars := ("governance").data

/-- Keyword scanned for by the decision-type classifier. -/
def kwProposal : Chars := ("proposal").data

/-- Keyword scanned for by the decision-type classifier. -/
def kwVote : Chars := ("vote").data

/-- Keyword scanned for by the decision-type classifier. -/
def kwTreasury : Chars := ("treasury").data

/-- Keyword scanned for by the decision-type classifier. -/
def kwFund : Chars := ("fund").data

/-- Keyword scanned for by the decision-type classifier. -/
def kwInvestment : Chars := ("investment").data

/-- Keyword scanned for by the decision-type classifier. -/
def kwRecommend : Chars := ("recommend").data

/-- Keyword scanned for by the decision-type classifier. -/
def kwSuggest : Chars := ("suggest").data

/-- Keyword scanned for by the decision-type classifier. -/
def kwAdvice : Chars := ("advice").data

/-- First condition of `analyzeDecisionType`: an emergency term occurs. -/
def emergencyCond (li : Chars) : Bool :=
  includesStr li kwEmergency || includesStr li kwUrgent || includesStr li kwCritical

/-- Second condition of `analyzeDecisionType`: a governance term occurs. -/
def governanceCond (li : Chars) : Bool :=
  includesStr li kwGovernance || includesStr li kwProposal || includesStr li kwVote

/-- Third condition of `analyzeDecisionType`: a treasury term occurs. -/
def treasuryCond (li : Chars) : Bool :=
  includesStr li kwTreasury || includesStr li kwFund || includesStr li kwInvestment

/-- Fourth condition of `analyzeDecisionType`: an advisory term occurs. -/
def advisoryCond (li : Chars) : Bool :=
  includesStr li kwRecommend || includesStr li kwSuggest || includesStr li kwAdvice

/-- Embedding of `ElizaApiService.analyzeDecisionType`.  The `response`
argument is accepted and ignored, exactly as in the source. -/
def analyzeDecisionType (input response : Chars) : DecisionType :=
  let lowerInput := lowerStr input
  if emergencyCond lowerInput then .emergency
  else if governanceCond lowerInput then .autonomous
  else if treasuryCond lowerInput then .autonomous
  else if advisoryCond lowerInput then .advisory
  else .general

/-- Embedding of `ElizaApiService.extractActions`: independent substring
checks on the response text, each pushing one action. -/
def extractActions (response : Chars) : List SuggestedAction :=
  let lr := lowerStr response
  (if includesStr lr kwRecommend then
    [⟨("recommendation").data, ("AI-generated recommendation based on analysis").data,
      RiskLevel.low⟩] else []) ++
  (if includesStr lr kwVote || includesStr lr kwProposal then
    [⟨("governance").data, ("Governance action or proposal review").data,
      RiskLevel.medium⟩] else []) ++
  (if includesStr lr kwTreasury || includesStr lr kwFund then
    [⟨("treasury").data, ("Treasury management or optimization").data,
      RiskLevel.high⟩] else [])

/-- Keyword scanned for by `determineAvatarEmotion`. -/
def kwAlert : Chars := ("alert").data

/-- Keyword scanned for by `determineAvatarEmotion`. -/
def kwExcellent : Chars := ("excellent").data

/-- Keyword scanned for by `determineAvatarEmotion`. -/
def kwSuccess : Chars := ("success").data

/-- Keyword scanned for by `determineAvatarEmotion`. -/
def kwOptimiz : Chars := ("optimiz").data

/-- Keyword scanned for by `determineAvatarEmotion`. -/
def kwAnalyz : Chars := ("analyz").data

/-- Keyword scanned for by `determineAvatarEmotion`. -/
def kwCalculat : Chars := ("calculat").data

/-- Keyword scanned for by `determineAvatarEmotion`. -/
def kwReview : Chars := ("review").data

/-- Keyword scanned for by `determineAvatarEmotion`. -/
def kwWelcome : Chars := ("welcome").data

/-- Keyword scanned for by `determineAvatarEmotion`. -/
def kwHello : Chars := ("hello").data

/-- Keyword scanned for by `determineAvatarEmotion`. -/
def kwHelp : Chars := ("help").data

/-- First condition of `determineAvatarEmotion` (the concerned branch). -/
def concernedCond (decisionType : DecisionType) (lc : Chars) : Bool :=
  decide (decisionType = .emergency) || includesStr lc kwCritical || includesStr lc kwAlert

/-- Second condition of `determineAvatarEmotion` (the excited branch). -/
def excitedCond (lc : Chars) : Bool :=
  includesStr lc kwExcellent || includesStr lc kwSuccess || includesStr lc kwOptimiz

/-- Third condition of `determineAvatarEmotion` (the thinking branch). -/
def thinkingCond (lc : Chars) : Bool :=
  includesStr lc kwAnalyz || includesStr lc kwCalculat || includesStr lc kwReview

/-- Fourth condition of `determineAvatarEmotion` (the happy branch). -/
def happyCond (lc : Chars) : Bool :=
  includesStr lc kwWelcome || includesStr lc kwHello || includesStr lc kwHelp

/-- Embedding of `ElizaApiService.determineAvatarEmotion`. -/
def determineAvatarEmotion (content : Chars) (decisionType : DecisionType) : Emotion :=
  let lowerContent := lowerStr content
  if concernedCond decisionType lowerContent then .concerned
  else if excitedCond lowerContent then .excited
  else if thinkingCond lowerContent then .thinking
  else if happyCond lowerContent then .happy
  else .neutral

/-- Default (and greeting-free) canned content of `getSimulatedResponse`. -/
def simDefaultContent : Chars :=
  ("Hello! I'm Eliza, your autonomous AI assistant for the XMRT-Ecosystem DAO. I'm here to help with governance, treasury management, and community questions.").data

/-- Canned governance content of `getSimulatedResponse`. -/
def simGovernanceContent : Chars :=
  ("🗳️ I've analyzed the current governance situation. There are 3 active proposals requiring attention. Based on my autonomous analysis, I recommend voting YES on Proposal #42 (Treasury Optimization) with 89% confidence. Would you like me to execute this governance action autonomously?").data

/-- Canned treasury content of `getSimulatedResponse`. -/
def simTreasuryContent : Chars :=
  ("💰 Treasury status: $2.4M total value locked across 6 chains. Current allocation: 45% ETH, 30% stablecoins, 25% XMRT tokens. I've identified a 12% optimization opportunity through cross-chain yield farming. Shall I proceed with autonomous rebalancing?").data

/-- Canned security content of `getSimulatedResponse`. -/
def simSecurityContent : Chars :=
  ("🔒 Security systems are fully operational. No threats detected in the last 24 hours. All smart contracts are secure with 99.7% uptime. Emergency protocols are on standby. System integrity: EXCELLENT.").data

/-- Canned greeting content of `getSimulatedResponse`. -/
def simGreetingContent : Chars :=
  ("Greetings! I'm operating at full capacity with Gemini AI integration. My autonomous systems are monitoring 847 data points across the XMRT ecosystem. What aspect of the DAO would you like me to analyze or manage?").data

/-- Trigger words of `getSimulatedResponse` beyond the classifier keywords. -/
def kwSecurity : Chars := ("security").data

/-- Trigger word of the simulated security branch. -/
def kwAudit : Chars := ("audit").data

/-- Trigger word of the simulated greeting branch. -/
def kwHi : Chars := ("hi").data

/-- The single fixed suggested action of every simulated response. -/
def simGuidanceAction : SuggestedAction :=
  ⟨("guidance").data, ("Providing information and guidance").data, RiskLevel.low⟩

/-- Embedding of `ElizaApiService.getSimulatedResponse` (the Fallback
Responder): an ordered substring match over the lowered input selecting a
canned content and decision kind. -/
def getSimulatedResponse (input : Chars) : ElizaResponse :=
  let lowerInput := lowerStr input
  let pair : Chars × DecisionType :=
    if includesStr lowerInput kwGovernance || includesStr lowerInput kwProposal then
      (simGovernanceContent, .autonomous)
    else if includesStr lowerInput kwTreasury || includesStr lowerInput kwFund then
      (simTreasuryContent, .autonomous)
    else if includesStr lowerInput kwSecurity || includesStr lowerInput kwAudit then
      (simSecurityContent, .advisory)
    else if includesStr lowerInput kwHello || includesStr lowerInput kwHi then
      (simGreetingContent, .general)
    else
      (simDefaultContent, .general)
  { content := pair.1
    confidence_score := 85 / 100
    decision_type := pair.2
    actions_suggested := [simGuidanceAction]
    system_status := some
      { uptime := 995 / 10
        queue_size := 2
        active_agents := [("governance-monitor").data, ("treasury-optimizer").data,
          ("security-scanner").data] }
    avatar_state := none
    system_endpoints := none
    real_time_data := none }

/-- JavaScript `Math.round`: round half toward positive infinity. -/
def jsRound (q : Rat) : Int := ⌊q + 1 / 2⌋

/-- Outcome of one `fetch` of an endpoint URL inside `checkSystemEndpoints`:
either the request settled with a response (`ok` flag of the response, the
JSON body when the body parsed as JSON, elapsed milliseconds, completion
time), or it threw (network failure or the 10 s timeout). -/
inductive FetchOutcome
  | settled (isOk : Bool) (jsonBody : Option Chars) (elapsed : Nat) (checkedAt : Nat)
  | failed (msg : Chars) (elapsed : Nat) (checkedAt : Nat)
deriving DecidableEq

/-- Embedding of the per-endpoint body of `checkSystemEndpoints`: how a
single endpoint record is rewritten from the outcome of its own fetch. -/
def checkEndpoint (e : SystemEndpoint) (o : FetchOutcome) : SystemEndpoint :=
  match o with
  | .settled isOk jsonBody elapsed checkedAt =>
      { e with
        status := if isOk then .online else .degraded
        responseTime := elapsed
        lastChecked := some checkedAt
        data := some (match jsonBody with
          | some body => .parsed body
          | none => .accessible) }
  | .failed msg elapsed checkedAt =>
      { e with
        status := .offline
        responseTime := elapsed
        lastChecked := some checkedAt
        data := some (.errorMarker msg) }

/-- Embedding of `ElizaApiService.checkSystemEndpoints`: every endpoint is
checked, each from the outcome of its own fetch, and the cycle completes
when all have settled (`Promise.allSettled`). -/
def checkSystemEndpoints (es : List SystemEndpoint) (os : List FetchOutcome) :
    List SystemEndpoint :=
  List.zipWith checkEndpoint es os

/-- The parsed JSON payload of the hashrate endpoint; every field the code
reads is optional, mirroring `data.hashrate || ...` defaulting. -/
structure HashratePayload where
  hashrate : Option Chars
  difficulty : Option Chars
  security_score : Option Int
  activity_level : Option Chars
deriving DecidableEq

/-- Outcome of the `fetch` inside `getHashrateData`: an OK response with a
parsed payload, a non-OK response, or a thrown error (network, timeout, or
a body that did not parse as JSON). -/
inductive HttpOutcome
  | okResponse (payload : HashratePayload)
  | notOk
  | threw
deriving DecidableEq

/-- The hard-coded simulated hashrate block of `getHashrateData`. -/
def fallbackHashrate : HashrateData :=
  { current_hashrate := ("2.8 GH/s").data
    difficulty := ("295.2B").data
    network_security := 92
    mining_activity := ("High").data }

/-- Embedding of `ElizaApiService.getHashrateData`. -/
def getHashrateData (o : HttpOutcome) : HashrateData :=
  match o with
  | .okResponse p =>
      { current_hashrate := p.hashrate.getD (("2.8 GH/s").data)
        difficulty := p.difficulty.getD (("295.2B").data)
        network_security := p.security_score.getD 92
        mining_activity := p.activity_level.getD (("High").data) }
  | .notOk => fallbackHashrate
  | .threw => fallbackHashrate

/-- Outcome parameter of `getRealTimeData`: the normal path carries the
outcome of the hashrate fetch; `threw` is the catch-all error path of the
surrounding try/catch. -/
inductive RtOutcome
  | normal (ho : HttpOutcome)
  | threw
deriving DecidableEq

/-- Number of endpoints whose recorded status is `online`. -/
def onlineCount (es : List SystemEndpoint) : Nat :=
  (es.filter (fun e => decide (e.status = .online))).length

/-- Sum of the recorded response times of a list of endpoints. -/
def totalResponseTime (es : List SystemEndpoint) : Nat :=
  (es.map SystemEndpoint.responseTime).sum

/-- Embedding of `ElizaApiService.getRealTimeData`. -/
def getRealTimeData (es : List SystemEndpoint) (o : RtOutcome) : RealTimeData :=
  match o with
  | .normal ho =>
      let ecosystemHealth : Rat := ((onlineCount es : Rat) / (es.length : Rat)) * 100
      let hashrateData := getHashrateData ho
      let avgResponseTime : Rat := (totalResponseTime es : Rat) / (es.length : Rat)
      let baseActivity : Rat := max 20 (100 - avgResponseTime / 10)
      let hashrateBonus : Rat := if hashrateData.network_security > 90 then 5 else 0
      { xmrt_ecosystem_health := jsRound ecosystemHealth
        dao_activity := min 100 (jsRound (baseActivity + hashrateBonus))
        treasury_value := ("$2.4M").data
        active_governance_proposals := 3
        network_hashrate := some hashrateData }
  | .threw =>
      { xmrt_ecosystem_health := 85
        dao_activity := 65
        treasury_value := ("$2.4M").data
        active_governance_proposals := 3
        network_hashrate := some fallbackHashrate }

/-- The mutable fields of `ElizaApiService` that the dispatch path reads or
writes, together with the configuration flags guarding the avatar update. -/
structure ServiceState where
  avatarState : VideoAvatarState
  systemEndpoints : List SystemEndpoint
  videoAvatarEnabled : Bool
  videoModelPresent : Bool
deriving DecidableEq

/-- File name component used for the generated avatar URL. -/
def emotionName : Emotion → Chars
  | .neutral => ("neutral").data
  | .happy => ("happy").data
  | .thinking => ("thinking").data
  | .concerned => ("concerned").data
  | .excited => ("excited").data

/-- Embedding of `ElizaApiService.updateAvatarState` (its settled state:
the guards, the no-change early return, and the final avatar record). -/
def updateAvatarState (st : ServiceState) (emotion : Emotion) : ServiceState :=
  if !st.videoAvatarEnabled || !st.videoModelPresent then st
  else if decide (st.avatarState.emotion = emotion) then st
  else
    { st with avatarState :=
      { isGenerating := false
        currentVideoUrl := some ((("/api/generated-avatar/").data ++ emotionName emotion)
          ++ (".mp4").data)
        emotion := emotion
        isReady := true } }

/-- Outcome of one dispatched turn of `sendMessage`: no AI model configured
(no API key), a successful AI call returning the reply text (together with
the outcome of the nested real-time-data fetch), or an exception thrown by
the AI call or by any step before it. -/
inductive DispatchOutcome
  | noModel
  | aiSuccess (content : Chars) (rt : RtOutcome)
  | thrown
deriving DecidableEq

/-- Embedding of `ElizaApiService.sendMessage`.  The memory-gateway store
calls are external fire-and-forget I/O with no influence on the returned
structure; the AI call and the real-time-data fetch are summarised by the
`DispatchOutcome` argument.  Returns the response and the service state
after the turn. -/
def sendMessage (st : ServiceState) (message : ElizaMessage) (o : DispatchOutcome) :
    ElizaResponse × ServiceState :=
  match o with
  | .noModel => (getSimulatedResponse message.content, st)
  | .thrown => (getSimulatedResponse message.content, st)
  | .aiSuccess content rt =>
      let decisionType := analyzeDecisionType message.content content
      let actions := extractActions content
      let avatarEmotion := determineAvatarEmotion content decisionType
      let st1 := updateAvatarState st avatarEmotion
      ({ content := content
         confidence_score := 95 / 100
         decision_type := decisionType
         actions_suggested := actions
         system_status := some
           { uptime := 997 / 10
             queue_size := 3
             active_agents := [("governance-monitor").data, ("treasury-optimizer").data,
               ("security-scanner").data, ("community-analyzer").data] }
         avatar_state := some st1.avatarState
         system_endpoints := some st1.systemEndpoints
         real_time_data := some (getRealTimeData st1.systemEndpoints rt) }, st1)

/-- The hard-coded endpoint list of `ElizaApiService`, at construction
time `t0` (each record is built with `new Date()`). -/
def initialSystemEndpoints (t0 : Nat) : List SystemEndpoint :=
  [ { name := ("XMRT Testing").data, url := ("https://xmrt-testing.onrender.com/").data
      status := .online, lastChecked := some t0, responseTime := 0, data := none }
  , { name := ("XMRT DAO Vercel").data, url := ("https://xmrtdao.vercel.app/").data
      status := .online, lastChecked := some t0, responseTime := 0, data := none }
  , { name := ("XMRT Network Eliza").data, url := ("https://xmrtnet-eliza.onrender.com/").data
      status := .online, lastChecked := some t0, responseTime := 0, data := none }
  , { name := ("XMRT DAO Dashboard").data, url := ("https://xmrtdao.streamlit.app").data
      status := .online, lastChecked := some t0, responseTime := 0, data := none } ]

/-- One row of the `conversation_memory` table.  JSONB blobs the code never
inspects are opaque `Chars`; the `conversation_context` column only ever
holds a JSONB array built by appends, so it is a list of opaque message
blobs; `multimodal_context` only ever holds a JSONB object, so it is an
association list merged right-biased (the semantics of JSONB `||` on
objects).  `id` stands for the UUID primary key, timestamps are `Nat`. -/
structure MemoryRow where
  id : Nat
  ip_address : Chars
  session_fingerprint : Chars
  conversation_context : List Chars
  neural_embeddings : Option Chars
  multimodal_context : List (Chars × Chars)
  total_interactions : Int
  last_interaction : Nat
  created_at : Nat
  updated_at : Nat
deriving DecidableEq

/-- The `conversation_memory` table, as a list of rows. -/
abbrev MemoryDb := List MemoryRow

/-- The WHERE clause shared by the three memory operations:
`ip_address = p_ip_address AND session_fingerprint = p_session_fingerprint`. -/
def keyMatches (ip fp : Chars) (r : MemoryRow) : Bool :=
  decide (r.ip_address = ip) && decide (r.session_fingerprint = fp)

/-- JSONB `||` on two objects: right-biased key union. -/
def jsonbMergeObj (a b : List (Chars × Chars)) : List (Chars × Chars) :=
  a.filter (fun kv => !(b.any (fun kv2 => decide (kv2.1 = kv.1)))) ++ b

/-- The row inserted by the no-existing-record branch of
`update_conversation_memory` (the INSERT ... VALUES of the SQL). -/
def storeNewRow (now freshId : Nat) (p_ip p_fp : Chars) (p_message : Chars)
    (p_neural : Option Chars) (p_multimodal : Option (List (Chars × Chars))) :
    MemoryRow :=
  { id := freshId
    ip_address := p_ip
    session_fingerprint := p_fp
    conversation_context := [p_message]
    neural_embeddings := p_neural
    multimodal_context := p_multimodal.getD []
    total_interactions := 1
    last_interaction := now
    created_at := now
    updated_at := now }

/-- The per-row rewrite of the existing-record branch of
`update_conversation_memory` (the UPDATE ... SET of the SQL): append the
message to the turn list, COALESCE the neural context, merge the
multimodal object, increment the interaction counter, refresh the
timestamps. -/
def storeRowUpdate (now : Nat) (p_message : Chars) (p_neural : Option Chars)
    (p_multimodal : Option (List (Chars × Chars))) (row : MemoryRow) : MemoryRow :=
  { row with
    conversation_context := row.conversation_context ++ [p_message]
    neural_embeddings := match p_neural with
      | some v => some v
      | none => row.neural_embeddings
    multimodal_context := jsonbMergeObj row.multimodal_context (p_multimodal.getD [])
    total_interactions := row.total_interactions + 1
    last_interaction := now
    updated_at := now }

/-- Embedding of the SQL function `public.update_conversation_memory` (the
store operation).  `now` is `now()`, `freshId` the UUID `gen_random_uuid()`
would mint for an insert.  Returns the returned `memory_id` and the table
after the call. -/
def update_conversation_memory (db : MemoryDb) (now freshId : Nat)
    (p_ip p_fp : Chars) (p_message : Chars)
    (p_neural : Option Chars) (p_multimodal : Option (List (Chars × Chars))) :
    Nat × MemoryDb :=
  match db.find? (keyMatches p_ip p_fp) with
  | none =>
      (freshId, db ++ [storeNewRow now freshId p_ip p_fp p_message p_neural p_multimodal])
  | some r =>
      (r.id, db.map (fun row =>
        if decide (row.id = r.id) then
          storeRowUpdate now p_message p_neural p_multimodal row
        else row))

/-- Embedding of the SQL function `public.clear_conversation_memory`:
deletes every row of the (IP, fingerprint) key and reports `FOUND`. -/
def clear_conversation_memory (db : MemoryDb) (p_ip p_fp : Chars) : Bool × MemoryDb :=
  (db.any (keyMatches p_ip p_fp), db.filter (fun r => !(keyMatches p_ip p_fp r)))

/-- Embedding of the `retrieve` action of the conversation-memory edge
function (the Deno handler staged inside `src/pages/Index.tsx`): a SELECT
of the single `conversation_memory` row whose `ip_address` and
`session_fingerprint` equal the caller's, answering the row or the
not-found sentinel (`memory: retrieveResult || null`, with the no-row
error PGRST116 tolerated).  Under the table's UNIQUE(ip_address,
session_fingerprint) constraint at most one row matches, so the lookup of
the first key match is that single row. -/
def retrieve_conversation_memory (db : MemoryDb) (p_ip p_fp : Chars) : Option MemoryRow :=
  db.find? (keyMatches p_ip p_fp)

/-- The `TTSConfig` interface (after constructor defaulting all three
fields are present). -/
structure TTSConfig where
  voiceId : Chars
  autoPlay : Bool
  enabled : Bool
deriving DecidableEq

/-- One entry of the TTS audio queue. -/
structure AudioItem where
  text : Chars
  audioContent : Chars
  mimeType : Chars
deriving DecidableEq

/-- The mutable state of `TTSService`. -/
structure TTSState where
  config : TTSConfig
  audioQueue : List AudioItem
  isPlaying : Bool
deriving DecidableEq

/-- The `TTSResponse` interface. -/
structure TTSResponse where
  audioContent : Chars
  mimeType : Chars
deriving DecidableEq

/-- Outcome of the `text-to-speech` edge-function invocation: data with an
`audioContent` field (possibly empty) and an optional `mimeType`, or an
invocation error. -/
inductive TTSBackendOutcome
  | ok (audioContent : Chars) (mimeType : Option Chars)
  | invokeError
deriving DecidableEq

/-- Embedding of `text.trim()`: strip leading and trailing whitespace. -/
def trimStr (s : Chars) : Chars :=
  ((s.dropWhile Char.isWhitespace).reverse.dropWhile Char.isWhitespace).reverse

/-- Embedding of `TTSService.generateSpeech`: `null` when disabled or the
text trims to empty; otherwise the backend outcome decides — an error or a
falsy `audioContent` is caught and yields `null`, success yields the audio
with the defaulted MIME type.  The method touches no service state. -/
def generateSpeech (st : TTSState) (text : Chars) (o : TTSBackendOutcome) :
    Option TTSResponse :=
  if !st.config.enabled || (trimStr text).isEmpty then none
  else match o with
    | .ok audioContent mimeType =>
        if audioContent.isEmpty then none
        else some { audioContent := audioContent
                    mimeType := mimeType.getD (("audio/mpeg").data) }
    | .invokeError => none

/-- Embedding of the synchronous state effect of `TTSService.playNext`:
with a non-empty queue and nothing playing, the head is shifted off and
playback starts; `startFailed` tells whether starting playback threw, in
which case `isPlaying` is reset. -/
def playNext (st : TTSState) (startFailed : Bool) : TTSState :=
  if st.audioQueue.isEmpty || st.isPlaying then st
  else { st with audioQueue := st.audioQueue.tail, isPlaying := !startFailed }

/-- Embedding of `TTSService.speakText`: early return when disabled or when
`generateSpeech` yields `null`; otherwise the item is pushed onto the queue
and `playNext` runs when auto-play is on and nothing is playing. -/
def speakText (st : TTSState) (text : Chars) (o : TTSBackendOutcome)
    (startFailed : Bool) : TTSState :=
  if !st.config.enabled then st
  else match generateSpeech st text o with
    | none => st
    | some r =>
        let st1 := { st with audioQueue :=
          st.audioQueue ++ [⟨text, r.audioContent, r.mimeType⟩] }
        if st1.config.autoPlay && !st1.isPlaying then playNext st1 startFailed else st1

/-- Embedding of `TTSService.clearQueue`. -/
def clearQueue (st : TTSState) : TTSState := { st with audioQueue := [] }

/-- Embedding of `TTSService.setEnabled`: set the flag, and clear the queue
when disabling. -/
def setEnabled (st : TTSState) (enabled : Bool) : TTSState :=
  let st1 : TTSState := { st with config := { st.config with enabled := enabled } }
  if !enabled then clearQueue st1 else st1

/-- Embedding of `TTSService.getQueueLength`. -/
def getQueueLength (st : TTSState) : Nat := st.audioQueue.length

/-- Method-call form of the Fallback Responder with the receiver's mutable
state made explicit: the source method reads no field of `this` and writes
none, so the call yields the pure value and leaves the state unchanged. -/
def callGetSimulatedResponse (st : ServiceState) (input : Chars) :
    ElizaResponse × ServiceState :=
  (getSimulatedResponse input, st)

/-- Every decision kind is one of the four enumerated values. -/
theorem decisionType_cases (d : DecisionType) :
    d = .autonomous ∨ d = .advisory ∨ d = .emergency ∨ d = .general := by
  cases d <;> simp

/-- Confidence of every simulated response is the constant 0.85. -/
theorem getSimulatedResponse_confidence (c : Chars) :
    (getSimulatedResponse c).confidence_score = 85 / 100 := rfl

/-- C1: for every input message the dispatcher returns a structured
response and never propagates a raised error: when the AI call (or any
step before it) throws, and likewise when no AI model is configured, the
result is exactly the Fallback Responder's response for that input. -/
theorem sendMessage_error_returns_fallback :
    ∀ (st : ServiceState) (message : ElizaMessage),
      (sendMessage st message .thrown).1 = getSimulatedResponse message.content ∧
      (sendMessage st message .noModel).1 = getSimulatedResponse message.content := by
  intro st message
  exact ⟨rfl, rfl⟩

/-- C2: on every dispatch path the returned response has a confidence
score inside the closed interval from 0 to 1 and a decision kind in the
fixed four-value enumeration. -/
theorem sendMessage_confidence_kind_range :
    ∀ (st : ServiceState) (message : ElizaMessage) (o : DispatchOutcome),
      0 ≤ ((sendMessage st message o).1).confidence_score ∧
      ((sendMessage st message o).1).confidence_score ≤ 1 ∧
      (((sendMessage st message o).1).decision_type = .autonomous ∨
       ((sendMessage st message o).1).decision_type = .advisory ∨
       ((sendMessage st message o).1).decision_type = .emergency ∨
       ((sendMessage st message o).1).decision_type = .general) := by
  intro st message o
  refine ⟨?_, ?_, decisionType_cases _⟩ <;>
    cases o <;>
    simp only [sendMessage, getSimulatedResponse_confidence] <;>
    norm_num

/-- C5: the Fallback Responder is pure and deterministic: a call leaves
the service state unchanged, two calls from any two states with the same
input text return the identical response, and the returned value is the
pure function of the input text. -/
theorem getSimulatedResponse_pure_deterministic :
    ∀ (st st2 : ServiceState) (input : Chars),
      (callGetSimulatedResponse st input).2 = st ∧
      (callGetSimulatedResponse st input).1 = (callGetSimulatedResponse st2 input).1 ∧
      (callGetSimulatedResponse st input).1 = getSimulatedResponse input := by
  intro st st2 input
  exact ⟨rfl, rfl, rfl⟩

/-- C3: the decision-kind classifier applies its keyword table in priority
order: any input whose lowered text contains an emergency term classifies
as emergency no matter what other terms are present, and any input whose
lowered text contains "treasury" but no emergency term classifies as
autonomous. -/
theorem analyzeDecisionType_keyword_priority :
    (∀ input response : Chars,
        emergencyCond (lowerStr input) = true →
        analyzeDecisionType input response = .emergency) ∧
    (∀ input response : Chars,
        includesStr (lowerStr input) kwTreasury = true →
        emergencyCond (lowerStr input) = false →
        analyzeDecisionType input response = .autonomous) := by
  constructor
  · intro input response h
    simp [analyzeDecisionType, h]
  · intro input response htr hem
    by_cases hg : governanceCond (lowerStr input) = true
    · simp [analyzeDecisionType, hem, hg]
    · have htc : treasuryCond (lowerStr input) = true := by
        simp [treasuryCond, htr]
      have hg2 : governanceCond (lowerStr input) = false := by
        cases h : governanceCond (lowerStr input)
        · rfl
        · exact absurd h hg
      simp [analyzeDecisionType, hem, htc, hg2]

/-- C3 witness: the priority theorem at concrete inputs. -/
theorem analyzeDecisionType_keyword_priority_witness :
    analyzeDecisionType (("emergency treasury vote").data) [] = .emergency ∧
    analyzeDecisionType (("check the Treasury status").data) [] = .autonomous :=
  ⟨analyzeDecisionType_keyword_priority.1 _ _ (by decide),
   analyzeDecisionType_keyword_priority.2 _ _ (by decide) (by decide)⟩

/-- C9: the avatar-emotion deriver always yields one of the five emotions,
follows the fixed branch priority concerned, excited, thinking, happy,
neutral, and whenever the decision kind is emergency the result is
concerned regardless of the content text. -/
theorem determineAvatarEmotion_priority :
    (∀ (content : Chars) (dt : DecisionType),
        determineAvatarEmotion content dt = .concerned ∨
        determineAvatarEmotion content dt = .excited ∨
        determineAvatarEmotion content dt = .thinking ∨
        determineAvatarEmotion content dt = .happy ∨
        determineAvatarEmotion content dt = .neutral) ∧
    (∀ content : Chars, determineAvatarEmotion content .emergency = .concerned) ∧
    (∀ (content : Chars) (dt : DecisionType),
        concernedCond dt (lowerStr content) = false →
        excitedCond (lowerStr content) = true →
        determineAvatarEmotion content dt = .excited) ∧
    (∀ (content : Chars) (dt : DecisionType),
        concernedCond dt (lowerStr content) = false →
        excitedCond (lowerStr content) = false →
        thinkingCond (lowerStr content) = true →
        determineAvatarEmotion content dt = .thinking) ∧
    (∀ (content : Chars) (dt : DecisionType),
        concernedCond dt (lowerStr content) = false →
        excitedCond (lowerStr content) = false →
        thinkingCond (lowerStr content) = false →
        happyCond (lowerStr content) = true →
        determineAvatarEmotion content dt = .happy) ∧
    (∀ (content : Chars) (dt : DecisionType),
        concernedCond dt (lowerStr content) = false →
        excitedCond (lowerStr content) = false →
        thinkingCond (lowerStr content) = false →
        happyCond (lowerStr content) = false →
        determineAvatarEmotion content dt = .neutral) := by
  refine ⟨?_, ?_, ?_, ?_, ?_, ?_⟩
  · intro content dt
    cases h : determineAvatarEmotion content dt <;> simp
  · intro content
    have hc : concernedCond .emergency (lowerStr content) = true := by
      simp [concernedCond]
    simp [determineAvatarEmotion, hc]
  · intro content dt h1 h2
    simp [determineAvatarEmotion, h1, h2]
  · intro content dt h1 h2 h3
    simp [determineAvatarEmotion, h1, h2, h3]
  · intro content dt h1 h2 h3 h4
    simp [determineAvatarEmotion, h1, h2, h3, h4]
  · intro content dt h1 h2 h3 h4
    simp [determineAvatarEmotion, h1, h2, h3, h4]

/-- C9 witness: the priority theorem applied at concrete contents. -/
theorem determineAvatarEmotion_priority_witness :
    determineAvatarEmotion (("all good").data) .emergency = .concerned ∧
    determineAvatarEmotion (("a success story").data) .general = .excited ∧
    determineAvatarEmotion (("under review").data) .general = .thinking ∧
    determineAvatarEmotion (("hello there").data) .general = .happy ∧
    determineAvatarEmotion (("nothing special").data) .general = .neutral :=
  ⟨determineAvatarEmotion_priority.2.1 _,
   determineAvatarEmotion_priority.2.2.1 _ _ (by decide) (by decide),
   determineAvatarEmotion_priority.2.2.2.1 _ _ (by decide) (by decide) (by decide),
   determineAvatarEmotion_priority.2.2.2.2.1 _ _ (by decide) (by decide) (by decide)
     (by decide),
   determineAvatarEmotion_priority.2.2.2.2.2 _ _ (by decide) (by decide) (by decide)
     (by decide)⟩

set_option maxRecDepth 8192 in
/-- C4: every simulated response carries confidence 0.85 and exactly the
one fixed guidance action, its content and decision kind come from the
five-entry ordered trigger table, and in particular the input "hello"
selects the greeting content with decision kind general. -/
theorem getSimulatedResponse_fixed_table :
    (∀ input : Chars,
        (getSimulatedResponse input).confidence_score = 85 / 100 ∧
        (getSimulatedResponse input).actions_suggested = [simGuidanceAction] ∧
        (((getSimulatedResponse input).content = simGovernanceContent ∧
            (getSimulatedResponse input).decision_type = .autonomous) ∨
         ((getSimulatedResponse input).content = simTreasuryContent ∧
            (getSimulatedResponse input).decision_type = .autonomous) ∨
         ((getSimulatedResponse input).content = simSecurityContent ∧
            (getSimulatedResponse input).decision_type = .advisory) ∨
         ((getSimulatedResponse input).content = simGreetingContent ∧
            (getSimulatedResponse input).decision_type = .general) ∨
         ((getSimulatedResponse input).content = simDefaultContent ∧
            (getSimulatedResponse input).decision_type = .general))) ∧
    ((getSimulatedResponse (("hello").data)).content = simGreetingContent ∧
     (getSimulatedResponse (("hello").data)).decision_type = .general ∧
     (getSimulatedResponse (("hello").data)).confidence_score = 85 / 100) := by
  constructor
  · intro input
    refine ⟨rfl, rfl, ?_⟩
    simp only [getSimulatedResponse]
    by_cases h1 : (includesStr (lowerStr input) kwGovernance ||
        includesStr (lowerStr input) kwProposal) = true
    · simp [h1]
    · by_cases h2 : (includesStr (lowerStr input) kwTreasury ||
          includesStr (lowerStr input) kwFund) = true
      · simp [h1, h2]
      · by_cases h3 : (includesStr (lowerStr input) kwSecurity ||
            includesStr (lowerStr input) kwAudit) = true
        · simp [h1, h2, h3]
        · by_cases h4 : (includesStr (lowerStr input) kwHello ||
              includesStr (lowerStr input) kwHi) = true
          · simp [h1, h2, h3, h4]
          · simp [h1, h2, h3, h4]
  · refine ⟨?_, ?_, rfl⟩ <;> decide

/-- A disabled TTS service ignores `speakText` entirely. -/
theorem speakText_disabled (st : TTSState) (text : Chars) (o : TTSBackendOutcome)
    (sf : Bool) (h : st.config.enabled = false) : speakText st text o sf = st := by
  simp [speakText, h]

/-- Disabling keeps the `enabled` flag false and the queue empty. -/
theorem setEnabled_false_state (st : TTSState) :
    (setEnabled st false).config.enabled = false ∧
    (setEnabled st false).audioQueue = [] := by
  refine ⟨?_, ?_⟩ <;> simp [setEnabled, clearQueue]

/-- C10: a disabled TTS service has an empty audio queue: disabling clears
the queue, a disabled service's `generateSpeech` returns null (as it also
does for whitespace-only text) and its `speakText` changes nothing, and
after disabling, the queue length stays 0 under any sequence of
`speakText` calls. -/
theorem tts_disabled_queue_invariant :
    (∀ st : TTSState, getQueueLength (setEnabled st false) = 0) ∧
    (∀ (st : TTSState) (text : Chars) (o : TTSBackendOutcome),
        st.config.enabled = false → generateSpeech st text o = none) ∧
    (∀ (st : TTSState) (text : Chars) (o : TTSBackendOutcome),
        trimStr text = [] → generateSpeech st text o = none) ∧
    (∀ (st : TTSState) (text : Chars) (o : TTSBackendOutcome) (sf : Bool),
        st.config.enabled = false → speakText st text o sf = st) ∧
    (∀ (st : TTSState) (calls : List (Chars × TTSBackendOutcome × Bool)),
        getQueueLength
          (calls.foldl (fun s c => speakText s c.1 c.2.1 c.2.2) (setEnabled st false))
          = 0) := by
  refine ⟨?_, ?_, ?_, fun st text o sf h => speakText_disabled st text o sf h, ?_⟩
  · intro st
    simp [getQueueLength, (setEnabled_false_state st).2]
  · intro st text o h
    simp [generateSpeech, h]
  · intro st text o h
    simp [generateSpeech, h]
  · intro st calls
    have main : ∀ (l : List (Chars × TTSBackendOutcome × Bool)) (s : TTSState),
        s.config.enabled = false →
        l.foldl (fun s c => speakText s c.1 c.2.1 c.2.2) s = s := by
      intro l
      induction l with
      | nil => intro s _; rfl
      | cons c l ih =>
          intro s hs
          simp only [List.foldl_cons, speakText_disabled s c.1 c.2.1 c.2.2 hs]
          exact ih s hs
    rw [main calls (setEnabled st false) (setEnabled_false_state st).1]
    simp [getQueueLength, (setEnabled_false_state st).2]

/-- C10 witness: the invariant theorem applied at a concrete disabled
service state and concrete calls. -/
theorem tts_disabled_queue_invariant_witness :
    generateSpeech ⟨⟨("v").data, true, false⟩, [], false⟩ (("hello").data)
      (.ok (("x").data) none) = none ∧
    generateSpeech ⟨⟨("v").data, true, true⟩, [], false⟩ (("  ").data)
      (.ok (("x").data) none) = none ∧
    speakText ⟨⟨("v").data, true, false⟩, [], false⟩ (("hello").data)
      (.ok (("x").data) none) false = ⟨⟨("v").data, true, false⟩, [], false⟩ :=
  ⟨tts_disabled_queue_invariant.2.1 _ _ _ (by decide),
   tts_disabled_queue_invariant.2.2.1 _ _ _ (by decide),
   tts_disabled_queue_invariant.2.2.2.1 _ _ _ _ (by decide)⟩

/-- Index-wise description of `zipWith`: entry `i` of the result depends
only on entry `i` of each input list. -/
theorem zipWith_getElem? {α β γ : Type} (f : α → β → γ) :
    ∀ (as : List α) (bs : List β) (i : Nat),
      (List.zipWith f as bs)[i]? = (as[i]?).bind fun a => (bs[i]?).map (f a)
  | [], _, _ => by simp
  | _ :: _, [], _ => by simp
  | a :: as, b :: bs, 0 => by simp
  | a :: as, b :: bs, i + 1 => by
      simpa using zipWith_getElem? f as bs i

/-- Every element of a `zipWith` arises from one element of each list. -/
theorem mem_zipWith_elim {α β γ : Type} {f : α → β → γ} {c : γ} :
    ∀ {as : List α} {bs : List β}, c ∈ List.zipWith f as bs →
      ∃ a b, a ∈ as ∧ b ∈ bs ∧ c = f a b := by
  intro as
  induction as with
  | nil => intro bs h; simp at h
  | cons a as ih =>
      intro bs h
      cases bs with
      | nil => simp at h
      | cons b bs =>
          rcases List.mem_cons.mp h with h1 | h2
          · exact ⟨a, b, List.mem_cons_self a as, List.mem_cons_self b bs, h1⟩
          · rcases ih h2 with ⟨a2, b2, ha, hb, hc⟩
            exact ⟨a2, b2, List.mem_cons_of_mem a ha, List.mem_cons_of_mem b hb, hc⟩

/-- C6: after one complete monitoring cycle over any mix of outcomes (as
many outcomes as endpoints), the cycle records every endpoint, every
record has a non-null `lastChecked` and a status among online, degraded
and offline; each recorded entry is a function of that endpoint's own
outcome alone (so one endpoint's failure cannot alter another's record),
with online exactly for an OK response, degraded for a reachable non-OK
response, and offline for a thrown network or timeout error. -/
theorem checkSystemEndpoints_cycle :
    ∀ (es : List SystemEndpoint) (os : List FetchOutcome),
      os.length = es.length →
      ((checkSystemEndpoints es os).length = es.length ∧
       (∀ e ∈ checkSystemEndpoints es os,
          (∃ t, e.lastChecked = some t) ∧
          (e.status = .online ∨ e.status = .degraded ∨ e.status = .offline)) ∧
       (∀ i : Nat, (checkSystemEndpoints es os)[i]? =
          (es[i]?).bind fun e => (os[i]?).map fun o => checkEndpoint e o) ∧
       (∀ (e : SystemEndpoint) (isOk : Bool) (body : Option Chars) (el t : Nat),
          (checkEndpoint e (.settled isOk body el t)).status =
            (if isOk then .online else .degraded) ∧
          (checkEndpoint e (.settled isOk body el t)).lastChecked = some t) ∧
       (∀ (e : SystemEndpoint) (msg : Chars) (el t : Nat),
          (checkEndpoint e (.failed msg el t)).status = .offline ∧
          (checkEndpoint e (.failed msg el t)).lastChecked = some t)) := by
  intro es os hlen
  refine ⟨?_, ?_, ?_, ?_, ?_⟩
  · simp [checkSystemEndpoints, hlen]
  · intro e he
    rcases mem_zipWith_elim he with ⟨a, o, _, _, rfl⟩
    cases o with
    | settled isOk body el t =>
        refine ⟨⟨t, by simp [checkEndpoint]⟩, ?_⟩
        cases isOk <;> simp [checkEndpoint]
    | failed msg el t =>
        exact ⟨⟨t, by simp [checkEndpoint]⟩, Or.inr (Or.inr (by simp [checkEndpoint]))⟩
  · intro i
    exact zipWith_getElem? checkEndpoint es os i
  · intro e isOk body el t
    cases isOk <;> simp [checkEndpoint]
  · intro e msg el t
    simp [checkEndpoint]

/-- Concrete demonstration outcomes for the four hard-coded endpoints:
an OK response, a network failure, a reachable non-OK response, an OK
response with a JSON body. -/
def demoOutcomes : List FetchOutcome :=
  [ .settled true none 120 11
  , .failed (("network error").data) 10000 12
  , .settled false none 340 13
  , .settled true (some (("status: ok").data)) 55 14 ]

/-- C6 witness: the cycle theorem applied to the hard-coded endpoint list
and the concrete demonstration outcomes. -/
theorem checkSystemEndpoints_cycle_witness :
    (checkSystemEndpoints (initialSystemEndpoints 0) demoOutcomes).length =
      (initialSystemEndpoints 0).length ∧
    ∀ e ∈ checkSystemEndpoints (initialSystemEndpoints 0) demoOutcomes,
      (∃ t, e.lastChecked = some t) ∧
      (e.status = .online ∨ e.status = .degraded ∨ e.status = .offline) :=
  ⟨(checkSystemEndpoints_cycle (initialSystemEndpoints 0) demoOutcomes (by decide)).1,
   (checkSystemEndpoints_cycle (initialSystemEndpoints 0) demoOutcomes (by decide)).2.1⟩

/-- Helper bounds for `jsRound` on a rational inside an interval. -/
theorem jsRound_bounds {lo hi : ℤ} {q : Rat} (h1 : (lo : Rat) ≤ q) (h2 : q ≤ (hi : Rat)) :
    lo ≤ jsRound q ∧ jsRound q ≤ hi := by
  constructor
  · exact Int.le_floor.mpr (by linarith)
  · have : jsRound q < hi + 1 := Int.floor_lt.mpr (by push_cast; linarith)
    omega

/-- C8: for a non-empty endpoint list, on every path of `getRealTimeData`
(normal and error-fallback) the ecosystem health lies in the closed
interval 0 to 100 and the DAO activity in the closed interval 20 to 100;
on the success path the health equals the rounded percentage of endpoints
whose status is online. -/
theorem getRealTimeData_ranges :
    ∀ es : List SystemEndpoint, es ≠ [] →
      (∀ o : RtOutcome,
        0 ≤ (getRealTimeData es o).xmrt_ecosystem_health ∧
        (getRealTimeData es o).xmrt_ecosystem_health ≤ 100 ∧
        20 ≤ (getRealTimeData es o).dao_activity ∧
        (getRealTimeData es o).dao_activity ≤ 100) ∧
      (∀ ho : HttpOutcome,
        (getRealTimeData es (.normal ho)).xmrt_ecosystem_health =
          jsRound (((onlineCount es : Rat) / (es.length : Rat)) * 100)) := by
  intro es hne
  have hn : 0 < es.length := List.length_pos.mpr hne
  have hnq : (0 : Rat) < (es.length : Rat) := by exact_mod_cast hn
  constructor
  · intro o
    cases o with
    | threw =>
        refine ⟨by norm_num [getRealTimeData], by norm_num [getRealTimeData],
          by norm_num [getRealTimeData], by norm_num [getRealTimeData]⟩
    | normal ho =>
        have hk : onlineCount es ≤ es.length := List.length_filter_le _ es
        have hratio0 : (0 : Rat) ≤ (onlineCount es : Rat) / (es.length : Rat) :=
          div_nonneg (by positivity) (le_of_lt hnq)
        have hratio1 : (onlineCount es : Rat) / (es.length : Rat) ≤ 1 :=
          (div_le_one hnq).mpr (by exact_mod_cast hk)
        have hh := @jsRound_bounds 0 100
          (((onlineCount es : Rat) / (es.length : Rat)) * 100)
          (by push_cast; nlinarith) (by push_cast; nlinarith)
        have havg0 : (0 : Rat) ≤ (totalResponseTime es : Rat) / (es.length : Rat) :=
          div_nonneg (by positivity) (le_of_lt hnq)
        have hbase1 : (20 : Rat) ≤
            max 20 (100 - (totalResponseTime es : Rat) / (es.length : Rat) / 10) :=
          le_max_left _ _
        have hbase2 :
            max 20 (100 - (totalResponseTime es : Rat) / (es.length : Rat) / 10) ≤ 100 := by
          refine max_le (by norm_num) (by linarith)
        have hbonus0 : (0 : Rat) ≤
            (if (getHashrateData ho).network_security > 90 then (5 : Rat) else 0) := by
          split <;> norm_num
        have hbonus5 :
            (if (getHashrateData ho).network_security > 90 then (5 : Rat) else 0) ≤ 5 := by
          split <;> norm_num
        have hda := @jsRound_bounds 20 105
          (max 20 (100 - (totalResponseTime es : Rat) / (es.length : Rat) / 10) +
            (if (getHashrateData ho).network_security > 90 then (5 : Rat) else 0))
          (by push_cast; linarith) (by push_cast; linarith)
        refine ⟨?_, ?_, ?_, ?_⟩
        · simpa [getRealTimeData] using hh.1
        · simpa [getRealTimeData] using hh.2
        · show 20 ≤ min 100 (jsRound _)
          exact le_min (by norm_num) hda.1
        · show min 100 (jsRound _) ≤ 100
          exact min_le_left _ _
  · intro ho
    rfl

/-- C8 witness: the range theorem applied to the hard-coded endpoint list
with a thrown hashrate fetch. -/
theorem getRealTimeData_ranges_witness :
    0 ≤ (getRealTimeData (initialSystemEndpoints 0)
        (.normal .threw)).xmrt_ecosystem_health ∧
    (getRealTimeData (initialSystemEndpoints 0)
        (.normal .threw)).xmrt_ecosystem_health ≤ 100 ∧
    20 ≤ (getRealTimeData (initialSystemEndpoints 0) (.normal .threw)).dao_activity ∧
    (getRealTimeData (initialSystemEndpoints 0) (.normal .threw)).dao_activity ≤ 100 :=
  (getRealTimeData_ranges (initialSystemEndpoints 0) (by simp [initialSystemEndpoints])).1
    (.normal .threw)

/-- Updating, inside a table with pairwise-distinct ids, exactly the rows
that share the id of the first key match rewrites that match in place: a
lookup after the update finds the updated row, provided the update keeps
the lookup key. -/
theorem find?_map_update {p : MemoryRow → Bool} {upd : MemoryRow → MemoryRow}
    (hkeep : ∀ x, p (upd x) = p x) :
    ∀ (db : MemoryDb) (r : MemoryRow),
      db.Pairwise (fun a b => a.id ≠ b.id) →
      db.find? p = some r →
      (db.map (fun row => if decide (row.id = r.id) then upd row else row)).find? p
        = some (upd r) := by
  intro db
  induction db with
  | nil => intro r _ hf; simp at hf
  | cons a db ih =>
      intro r hpw hf
      have hpw2 := List.pairwise_cons.mp hpw
      cases ha : p a with
      | true =>
          have hra : r = a := by
            rw [List.find?_cons_of_pos _ ha] at hf
            exact (Option.some_inj.mp hf).symm
          subst hra
          simp only [List.map_cons]
          rw [if_pos (by simp)]
          rw [List.find?_cons_of_pos _ (by rw [hkeep r, ha])]
      | false =>
          rw [List.find?_cons_of_neg _ (by simp [ha])] at hf
          have hrmem : r ∈ db := List.mem_of_find?_eq_some hf
          have hne : a.id ≠ r.id := hpw2.1 r hrmem
          simp only [List.map_cons]
          rw [if_neg (by simpa using hne)]
          rw [List.find?_cons_of_neg _ (by simp [ha])]
          exact ih r hpw2.2 hf

/-- C7: for any (IP, fingerprint) identity, the store operation appends
the message to the record's ordered turn list and increments its
interaction counter, creating the record with one turn and counter 1 when
none exists; store followed by retrieve for the same identity returns a
history containing the stored message, and clear followed by retrieve
returns not-found.  The pairwise hypothesis is the table's primary-key
constraint (distinct row ids). -/
theorem conversation_memory_store_retrieve_clear :
    (∀ (db : MemoryDb) (now freshId : Nat) (ip fp msg : Chars)
        (n : Option Chars) (m : Option (List (Chars × Chars))),
        db.find? (keyMatches ip fp) = none →
        retrieve_conversation_memory
            (update_conversation_memory db now freshId ip fp msg n m).2 ip fp
          = some (storeNewRow now freshId ip fp msg n m)) ∧
    (∀ (db : MemoryDb) (now freshId : Nat) (ip fp msg : Chars)
        (n : Option Chars) (m : Option (List (Chars × Chars))) (r : MemoryRow),
        db.Pairwise (fun a b => a.id ≠ b.id) →
        db.find? (keyMatches ip fp) = some r →
        retrieve_conversation_memory
            (update_conversation_memory db now freshId ip fp msg n m).2 ip fp
          = some (storeRowUpdate now msg n m r)) ∧
    (∀ (db : MemoryDb) (now freshId : Nat) (ip fp msg : Chars)
        (n : Option Chars) (m : Option (List (Chars × Chars))),
        db.Pairwise (fun a b => a.id ≠ b.id) →
        ∃ row, retrieve_conversation_memory
            (update_conversation_memory db now freshId ip fp msg n m).2 ip fp
          = some row ∧ msg ∈ row.conversation_context ∧
          (db.find? (keyMatches ip fp) = none →
            row.total_interactions = 1 ∧ row.conversation_context = [msg])) ∧
    (∀ (db : MemoryDb) (ip fp : Chars),
        retrieve_conversation_memory (clear_conversation_memory db ip fp).2 ip fp
          = none) := by
  have hcreate : ∀ (db : MemoryDb) (now freshId : Nat) (ip fp msg : Chars)
      (n : Option Chars) (m : Option (List (Chars × Chars))),
      db.find? (keyMatches ip fp) = none →
      retrieve_conversation_memory
          (update_conversation_memory db now freshId ip fp msg n m).2 ip fp
        = some (storeNewRow now freshId ip fp msg n m) := by
    intro db now freshId ip fp msg n m hf
    simp only [update_conversation_memory, hf, retrieve_conversation_memory]
    rw [List.find?_append, hf]
    rw [List.find?_cons_of_pos _ (by simp [keyMatches, storeNewRow])]
    rfl
  have hupdate : ∀ (db : MemoryDb) (now freshId : Nat) (ip fp msg : Chars)
      (n : Option Chars) (m : Option (List (Chars × Chars))) (r : MemoryRow),
      db.Pairwise (fun a b => a.id ≠ b.id) →
      db.find? (keyMatches ip fp) = some r →
      retrieve_conversation_memory
          (update_conversation_memory db now freshId ip fp msg n m).2 ip fp
        = some (storeRowUpdate now msg n m r) := by
    intro db now freshId ip fp msg n m r hpw hf
    simp only [update_conversation_memory, hf, retrieve_conversation_memory]
    exact @find?_map_update (keyMatches ip fp) (storeRowUpdate now msg n m)
      (fun x => rfl) db r hpw hf
  refine ⟨hcreate, hupdate, ?_, ?_⟩
  · intro db now freshId ip fp msg n m hpw
    cases hf : db.find? (keyMatches ip fp) with
    | none =>
        refine ⟨storeNewRow now freshId ip fp msg n m,
          hcreate db now freshId ip fp msg n m hf, ?_, fun _ => ⟨rfl, rfl⟩⟩
        simp [storeNewRow]
    | some r =>
        refine ⟨storeRowUpdate now msg n m r,
          hupdate db now freshId ip fp msg n m r hpw hf, ?_, by simp [hf]⟩
        simp [storeRowUpdate]
  · intro db ip fp
    simp only [clear_conversation_memory, retrieve_conversation_memory]
    rw [List.find?_eq_none]
    intro x hx
    have hmem := List.mem_filter.mp hx
    simp only [Bool.not_eq_true'] at hmem
    simp [hmem.2]

/-- Concrete one-row table for the C7 witness. -/
def demoMemoryRow : MemoryRow :=
  { id := 7
    ip_address := ("10.0.0.1").data
    session_fingerprint := ("fp1").data
    conversation_context := [("hi there").data]
    neural_embeddings := none
    multimodal_context := []
    total_interactions := 1
    last_interaction := 100
    created_at := 100
    updated_at := 100 }

/-- C7 witness: the store/retrieve/clear theorem applied to an empty table
(creation), a one-row table (append and increment), and the clear-then-
retrieve sequence. -/
theorem conversation_memory_store_retrieve_clear_witness :
    retrieve_conversation_memory
        (update_conversation_memory [] 200 9 (("10.0.0.1").data) (("fp1").data)
          (("hello").data) none none).2 (("10.0.0.1").data) (("fp1").data)
      = some (storeNewRow 200 9 (("10.0.0.1").data) (("fp1").data)
          (("hello").data) none none) ∧
    retrieve_conversation_memory
        (update_conversation_memory [demoMemoryRow] 300 9 (("10.0.0.1").data)
          (("fp1").data) (("hello").data) none none).2
        (("10.0.0.1").data) (("fp1").data)
      = some (storeRowUpdate 300 (("hello").data) none none demoMemoryRow) ∧
    retrieve_conversation_memory
        (clear_conversation_memory [demoMemoryRow] (("10.0.0.1").data)
          (("fp1").data)).2 (("10.0.0.1").data) (("fp1").data)
      = none :=
  ⟨conversation_memory_store_retrieve_clear.1 [] 200 9 _ _ _ none none (by decide),
   conversation_memory_store_retrieve_clear.2.1 [demoMemoryRow] 300 9 _ _ _ none none
     demoMemoryRow (by simp) (by decide),
   conversation_memory_store_retrieve_clear.2.2.2 [demoMemoryRow] _ _⟩
